/-
Verification of the CatStream live-stream helper (Python) against its
natural-language specification, via a shallow embedding in Lean 4.

Every definition is translated from the Python source under
`src/cat_stream/`; the file and line references are given in the doc
comments.  Machine integers are modelled as `Int`/`Nat` with explicit
two's-complement conversion where `struct.pack`/`struct.unpack` matter;
Python dicts are modelled as insertion-ordered association lists; fallible
code returns `Except`.
-/
import Mathlib

deriving instance DecidableEq for Except

namespace CatStream

/-! ## Frame codec (`_BliveProto` in `bili_client.py`, lines 224-282)

`struct.pack('>i', v)` / `struct.pack('>h', v)` serialize a signed 32/16-bit
integer big-endian and raise `struct.error` when the value is out of range;
`struct.unpack` reads the bytes back as a signed value.  Bytes are modelled
as `Nat` values (each `< 256` for packed output). -/

/-- Big-endian byte list of a 32-bit unsigned value (`struct.pack('>i', ...)`
after two's-complement conversion). -/
def u32bytes (n : Nat) : List Nat :=
  [n / 16777216 % 256, n / 65536 % 256, n / 256 % 256, n % 256]

/-- Big-endian byte list of a 16-bit unsigned value. -/
def u16bytes (n : Nat) : List Nat :=
  [n / 256 % 256, n % 256]

/-- Two's-complement image of a signed value in 32 bits. -/
def toU32 (v : Int) : Nat := (v % 4294967296).toNat

/-- Two's-complement image of a signed value in 16 bits. -/
def toU16 (v : Int) : Nat := (v % 65536).toNat

/-- Serialization of one signed 32-bit field, as `struct.pack('>i', v)`. -/
def pack32 (v : Int) : List Nat := u32bytes (toU32 v)

/-- Serialization of one signed 16-bit field, as `struct.pack('>h', v)`. -/
def pack16 (v : Int) : List Nat := u16bytes (toU16 v)

/-- Signed reading of a 32-bit unsigned value, as `struct.unpack('>i', ...)`. -/
def signed32 (n : Nat) : Int :=
  if n < 2147483648 then (n : Int) else (n : Int) - 4294967296

/-- Signed reading of a 16-bit unsigned value, as `struct.unpack('>h', ...)`. -/
def signed16 (n : Nat) : Int :=
  if n < 32768 then (n : Int) else (n : Int) - 65536

/-- Decode four big-endian bytes as a signed 32-bit integer. -/
def unpack32 (a b c d : Nat) : Int :=
  signed32 (a * 16777216 + b * 65536 + c * 256 + d)

/-- Decode two big-endian bytes as a signed 16-bit integer. -/
def unpack16 (a b : Nat) : Int :=
  signed16 (a * 256 + b)

/-- Range accepted by `struct.pack('>i', v)` (signed 32-bit). -/
def i32ok (v : Int) : Bool := -2147483648 ≤ v && v < 2147483648

/-- Range accepted by `struct.pack('>h', v)` (signed 16-bit). -/
def i16ok (v : Int) : Bool := -32768 ≤ v && v < 32768

/-- The protocol frame of `_BliveProto.__init__` (bili_client.py:226-233).
`body` is the byte sequence (`self.body.encode()` for outgoing frames, the
buffer slice for incoming ones).  A fresh object has `headerLen = 16`,
`maxBody = 2048` and all other fields zero / empty. -/
structure BliveFrame where
  packetLen : Int
  headerLen : Int
  ver : Int
  op : Int
  seq : Int
  body : List Nat
deriving DecidableEq, Repr

/-- Maximum accepted `packetLen`, `self.maxBody` (bili_client.py:233). -/
def maxBody : Int := 2048

/-- An out-of-range field given to `struct.pack` (a `struct.error`). -/
inductive PackError
  | outOfRange (field : String)
deriving DecidableEq, Repr

/-- Errors signalled by `_BliveProto.unpack` (bili_client.py:245-268).  The
source prints a diagnostic and returns early, leaving the object unusable;
each such early return is modelled as the corresponding error value:
line 246-248 (buffer shorter than the 16-byte header) is `truncatedHeader`,
line 254-257 (`packetLen < 0 or packetLen > maxBody`) is `bodyTooLarge`. -/
inductive DecodeError
  | truncatedHeader
  | bodyTooLarge
deriving DecidableEq, Repr

/-- The byte sequence `_BliveProto.pack` builds (bili_client.py:236-243):
`packetLen = len(body) + headerLen` recomputed, then
`packetLen, headerLen, ver, op, seq` big-endian followed by the body
bytes. -/
def packBytes (f : BliveFrame) : List Nat :=
  pack32 (f.body.length + f.headerLen) ++ pack16 f.headerLen ++ pack16 f.ver ++
  pack32 f.op ++ pack32 f.seq ++ f.body

/-- Encoder `_BliveProto.pack` (bili_client.py:235-243): recomputes
`packetLen` from the body length, then serializes the fields; a field
outside its `struct.pack` range raises `struct.error` (modelled as
`PackError`). -/
def BliveFrame.pack (f : BliveFrame) : Except PackError (List Nat) :=
  let packetLen : Int := f.body.length + f.headerLen
  if ¬ i32ok packetLen then .error (.outOfRange "packetLen")
  else if ¬ i16ok f.headerLen then .error (.outOfRange "headerLen")
  else if ¬ i16ok f.ver then .error (.outOfRange "ver")
  else if ¬ i32ok f.op then .error (.outOfRange "op")
  else if ¬ i32ok f.seq then .error (.outOfRange "seq")
  else .ok (packBytes f)

/-- Decoder `_BliveProto.unpack` (bili_client.py:245-268), called on a fresh
object (so the header-length check at line 246 compares against the initial
`headerLen = 16`).  Fields are read from fixed offsets 0,4,6,8,12; after the
`packetLen` range check the body is sliced as `buf[16:packetLen]` — note the
literal 16, not the decoded header length.  The check
`self.headerLen != self.headerLen` at line 258 is identically false and the
three returns after the body assignment (lines 262-268) all leave the object
in the same success state, so they are a single `.ok`.  Python's slice
`buf[16:packetLen]` for `0 ≤ packetLen` is `rest.take (packetLen - 16)` where
`rest` is the buffer past the first 16 bytes (clamped on both sides). -/
def unpack : List Nat → Except DecodeError BliveFrame
  | a0 :: a1 :: a2 :: a3 :: b0 :: b1 :: c0 :: c1 ::
    d0 :: d1 :: d2 :: d3 :: e0 :: e1 :: e2 :: e3 :: rest =>
    let packetLen := unpack32 a0 a1 a2 a3
    let headerLen := unpack16 b0 b1
    let ver := unpack16 c0 c1
    let op := unpack32 d0 d1 d2 d3
    let seq := unpack32 e0 e1 e2 e3
    if packetLen < 0 ∨ maxBody < packetLen then .error .bodyTooLarge
    else .ok ⟨packetLen, headerLen, ver, op, seq, rest.take (packetLen.toNat - 16)⟩
  | _ => .error .truncatedHeader

/-- The total length decoded from the first four bytes of a buffer (what
`unpack` stores into `self.packetLen`). -/
def decodedTotalLen (buf : List Nat) : Int :=
  unpack32 (buf.getD 0 0) (buf.getD 1 0) (buf.getD 2 0) (buf.getD 3 0)

/-- Modelled from the spec: the body slice the specification describes,
`bytes[headerLength:totalLength]` (spec §4.1), with Python clamping
semantics for non-negative indices.  Used only to compare the
specification's slice against the code's. -/
def specBodySlice (buf : List Nat) (headerLen totalLen : Int) : List Nat :=
  (buf.take totalLen.toNat).drop headerLen.toNat

/-! ## Python helpers

Python strings are modelled through their character lists (`String.data`);
`str.strip` / `str.lower` / single-character `str.isalpha` are given
structural definitions (ASCII-faithful, which covers every message the
claims mention).  Python dicts are insertion-ordered association lists. -/

/-- Character-list version of Python `str.strip()`. -/
def pyStrip (l : List Char) : List Char :=
  ((l.dropWhile Char.isWhitespace).reverse.dropWhile Char.isWhitespace).reverse

/-- Character-list version of Python `str.lower()`. -/
def pyLower (l : List Char) : List Char := l.map Char.toLower

/-- Lookup in a Python dict: `d[k]` when present. -/
def pyGet? {β : Type} (d : List (String × β)) (k : String) : Option β :=
  match d.find? (fun p => p.1 == k) with
  | some p => some p.2
  | none => none

/-- Python `k in d` on a dict. -/
def pyContains {β : Type} (d : List (String × β)) (k : String) : Bool :=
  (d.find? (fun p => p.1 == k)).isSome

/-- Python dict assignment `d[k] = v`: updates in place when the key exists,
otherwise appends (insertion order preserved). -/
def pySet {β : Type} (d : List (String × β)) (k : String) (v : β) : List (String × β) :=
  match d with
  | [] => [(k, v)]
  | (k', v') :: rest => if k' == k then (k', v) :: rest else (k', v') :: pySet rest k v

/-- Lexicographic code-point order on character lists (Python `str` order). -/
def strLeB : List Char → List Char → Bool
  | [], _ => true
  | _ :: _, [] => false
  | a :: as, b :: bs => if a = b then strLeB as bs else decide (a < b)

/-- Ordering of two Python strings. -/
def pyStrLe (a b : String) : Bool := strLeB a.data b.data

/-- Insert into an ascending list, keeping order (helper for `pySorted`). -/
def insertSorted (x : String) : List String → List String
  | [] => [x]
  | y :: ys => if pyStrLe x y then x :: y :: ys else y :: insertSorted x ys

/-- Python `sorted(...)` on a list of strings: a stable ascending sort,
modelled as insertion sort (same result on the distinct keys used here). -/
def pySorted (l : List String) : List String := l.foldr insertSorted []

/-! ## Vote aggregator (`BiliInteractReader` in `bili_interact_reader.py`)

The items of the interaction queue are Python dicts; the producer
(`BiliClient.recv_loop`, bili_client.py:179) builds them as
`dict(uid=uid, uname=uname, msg=msg)`, so the `medal_name` / `medal_level`
keys the consumer reads may be absent — that is modelled with `Option`
fields, `none` meaning the key is missing (reading it raises `KeyError`). -/

/-- One item of the interaction queue (a Python dict restricted to the keys
the program ever reads). -/
structure InterData where
  uid : String
  uname : String
  msg : String
  medal_name : Option String
  medal_level : Option Int
deriving DecidableEq, Repr

/-- The `clean_data` dict built by `BiliClient.recv_loop`
(bili_client.py:179): only `uid`, `uname` and `msg` keys are present. -/
def cleanData (uid uname msg : String) : InterData :=
  ⟨uid, uname, msg, none, none⟩

/-- Python runtime errors the embedded code can raise. -/
inductive PyErr
  | keyError (key : String)
  | attributeError (descr : String)
deriving DecidableEq, Repr

/-- The vote cache of `BiliInteractReader` (`self.votes`, `self.voted_users`;
bili_interact_reader.py:86-89). -/
structure ReaderVoteState where
  votes : List (String × Int)
  voted_users : List String
deriving DecidableEq, Repr

/-- Processing of one queue item by `BiliInteractReader._load_new_msg`
(bili_interact_reader.py:96-116).  Field accesses `inter_data['medal_name']`
and `inter_data['medal_level']` raise `KeyError` when the key is absent;
`uid` is the `str(...)` of the dict's uid, modelled as the string itself.
Note the order of operations taken from the source: the vote key is created
with value 0 (lines 101-102) *before* the already-voted check (lines
105-106), and the medal key is read only for voters who have not voted. -/
def loadOneMsg (super_users : List String) (st : ReaderVoteState) (d : InterData) :
    Except PyErr ReaderVoteState :=
  let clean : List Char := pyLower (pyStrip d.msg.data)
  let isSingleAlpha : Bool := match clean with
    | [c] => c.isAlpha
    | _ => false
  if isSingleAlpha then
    let key : String := ⟨clean⟩
    let votes := if pyContains st.votes key then st.votes else st.votes ++ [(key, 0)]
    let uid := d.uid
    if st.voted_users.contains uid then .ok { st with votes := votes }
    else
      let voted := st.voted_users ++ [uid]
      match d.medal_name with
      | none => .error (.keyError "medal_name")
      | some medal_name =>
        let base : Int := 1
        let afterMedal : Except PyErr Int :=
          if medal_name = "小菜雞" then
            match d.medal_level with
            | none => .error (.keyError "medal_level")
            | some lvl => .ok (base + lvl)
          else .ok base
        match afterMedal with
        | .error e => .error e
        | .ok n2 =>
          let n_votes := if super_users.contains uid then n2 + 10 else n2
          .ok { votes := pySet votes key ((pyGet? votes key).getD 0 + n_votes),
                voted_users := voted }
  else .ok st

/-- The drain loop of `_load_new_msg` (bili_interact_reader.py:94-96): every
currently queued item is processed in order; an uncaught exception aborts the
drain (further mutations to the Python object are not modelled because no
claim depends on them). -/
def loadMsgs (super_users : List String) : ReaderVoteState → List InterData →
    Except PyErr ReaderVoteState
  | st, [] => .ok st
  | st, d :: ds =>
    match loadOneMsg super_users st d with
    | .error e => .error e
    | .ok st' => loadMsgs super_users st' ds

/-- The reader: configured super users, the pending interaction queue, and
the vote cache. -/
structure BiliReader where
  super_users : List String
  pending : List InterData
  vs : ReaderVoteState
deriving DecidableEq, Repr

/-- `BiliInteractReader.get_vote_results` (bili_interact_reader.py:118-125):
drains the queue via `_load_new_msg`, then returns `self.votes`. -/
def BiliReader.get_vote_results (r : BiliReader) :
    Except PyErr (List (String × Int) × BiliReader) :=
  match loadMsgs r.super_users r.vs r.pending with
  | .error e => .error e
  | .ok vs' => .ok (vs'.votes, { r with pending := [], vs := vs' })

/-- `BiliInteractReader.reset` (bili_interact_reader.py:86-89): clears the
vote cache (the queue is untouched). -/
def BiliReader.reset (r : BiliReader) : BiliReader :=
  { r with vs := ⟨[], []⟩ }

/-! ## Session-client construction (`bili_interact_reader.py:63-84`,
`bili_client.py:18-43`) -/

/-- The keyword parameters accepted by `BiliClient.__init__`
(bili_client.py:18-27). -/
def biliClientInitParams : List String :=
  ["id_code", "app_id", "key", "secret", "host",
   "interact_queue", "queue_put_timeout", "verbose", "logger"]

/-- The keyword arguments `BiliInteractReader.__init__` passes to
`BiliClient(...)` (bili_interact_reader.py:63-72). -/
def readerInitCallKwargs : List String :=
  ["id_code", "app_id", "key", "secret", "host",
   "interact_queue", "exit_signal", "verbose", "logger"]

/-- Items that can appear in the interaction queue: the string `"Ready"`
that `BiliInteractReader.__init__` waits for, or a chat dict. -/
inductive QItem
  | ready
  | chat (d : InterData)
deriving DecidableEq, Repr

/-- The only kind of item `BiliClient.recv_loop` ever enqueues
(bili_client.py:179-185): the chat dict `clean_data`. -/
def recvEnqueueItem (uid uname msg : String) : QItem :=
  .chat (cleanData uid uname msg)

/-- How `BiliInteractReader.__init__` can end. -/
inductive ReaderInitOutcome
  | raisedTypeError (kw : String)
  | blockedOnFirstItem
  | raisedValueError
  | completed
deriving DecidableEq, Repr

/-- `BiliInteractReader.__init__` (bili_interact_reader.py:63-84): the call
`BiliClient(**kwargs)` raises `TypeError` at the first keyword the callee
does not accept; only if that call returned would the constructor start the
client thread and block on `interact_queue.get(block=True)` for a first
item, completing iff that item equals `"Ready"` (lines 79-84).
`firstItem` is the first queue item if one ever arrives. -/
def readerInit (firstItem : Option QItem) : ReaderInitOutcome :=
  match readerInitCallKwargs.filter (fun k => !(biliClientInitParams.contains k)) with
  | kw :: _ => .raisedTypeError kw
  | [] =>
    match firstItem with
    | none => .blockedOnFirstItem
    | some it => if it = QItem.ready then .completed else .raisedValueError

/-! ## Event enqueue in the receive loop (`bili_client.py:175-189`) -/

/-- Default of the `queue_put_timeout` parameter (bili_client.py:25). -/
def defaultQueuePutTimeout : Nat := 10

/-- Result of a `Queue.put` call: the item was enqueued after waiting
`waited` seconds, or `queue.Full` was raised after waiting `waited`
seconds. -/
inductive PutResult
  | enqueuedAt (waited : Nat)
  | fullAt (waited : Nat)
deriving DecidableEq, Repr

/-- First second at which the queue has a free slot, searched up to the
timeout.  `freeAt k` tells whether the queue has room `k` seconds after the
call (the consumer may drain it while the producer waits). -/
def firstFreeTick (freeAt : Nat → Bool) (t : Nat) : Option Nat :=
  (List.range (t + 1)).find? freeAt

/-- Python `Queue.put(item, block, timeout)` semantics: non-blocking puts
succeed or raise `Full` immediately; a blocking put with a timeout waits
until a slot is free, raising `Full` only once the timeout elapses.  (The
blocking-forever variant, `timeout=None`, is not used by this program and is
not modelled.) -/
def pyQueuePut (block : Bool) (timeout : Nat) (freeAt : Nat → Bool) : PutResult :=
  if block then
    match firstFreeTick freeAt timeout with
    | some k => .enqueuedAt k
    | none => .fullAt timeout
  else
    if freeAt 0 then .enqueuedAt 0 else .fullAt 0

/-- Log levels of the Python `logging` module. -/
inductive LogLevel
  | debug | info | warning | error
deriving DecidableEq, Repr

/-- The enqueue of one parsed chat message in `BiliClient.recv_loop`
(bili_client.py:182-189): `self.interact_queue.put(clean_data,
timeout=self.queue_put_timeout)` — a *blocking* put (`block` defaults to
`True`) with the configured timeout; when it raises `Full` the message is
dropped and a message is logged via `logger.error`.  The message is handled
exactly once (no retry). -/
def recvLoopEnqueue (queue_put_timeout : Nat) (freeAt : Nat → Bool) :
    PutResult × Option LogLevel :=
  match pyQueuePut true queue_put_timeout freeAt with
  | .enqueuedAt k => (.enqueuedAt k, none)
  | .fullAt t => (.fullAt t, some .error)

/-! ## Detection-thread source health (`detection_processor.py:175-218`) -/

/-- Per-source state of `RTSPDetectionThread`: the entry of
`self.rtsp_failure_count` (absent before the source is first seen) and
membership in `self.rtsp_backlist`. -/
structure SrcHealth where
  failure_count : Option Nat
  blacklisted : Bool
deriving DecidableEq, Repr

/-- Handling of one capture attempt for one source in
`RTSPDetectionThread._run_one_loop` (detection_processor.py:193-214):
blacklisted sources are skipped; a missing counter is initialised to 0; a
failed read increments the counter and blacklists the source once the
counter reaches the tolerance; a successful read leaves the counter
unchanged (there is no reset). -/
def srcStep (tolerance : Nat) (h : SrcHealth) (frameOk : Bool) : SrcHealth :=
  if h.blacklisted then h
  else
    let cnt := h.failure_count.getD 0
    if frameOk then { failure_count := some cnt, blacklisted := false }
    else
      let cnt := cnt + 1
      { failure_count := some cnt, blacklisted := tolerance ≤ cnt }

/-- The source's health after a sequence of capture attempts (one per job
that lists the source), starting from a fresh thread. -/
def srcRun (tolerance : Nat) (outcomes : List Bool) : SrcHealth :=
  outcomes.foldl (srcStep tolerance) ⟨none, false⟩

/-- Longest run of consecutive failed attempts in a sequence (used to state
what the specification's "consecutive" policy would require). -/
def maxConsecFails (outcomes : List Bool) : Nat :=
  (outcomes.foldl
    (fun acc ok => if ok then (0, acc.2) else (acc.1 + 1, max acc.2 (acc.1 + 1)))
    ((0 : Nat), (0 : Nat))).2

/-! ## Bounded queues and `force_put` (`mthread_utils.py:5-20`,
`detection_processor.py:46-49`) -/

/-- A Python `queue.Queue` with its bound: FIFO items, `maxsize` capacity
(`maxsize = 1` for both detection queues, `detection_processor.py:19-20,
46-49). -/
structure PyQueue (α : Type) where
  maxsize : Nat
  items : List α
deriving DecidableEq, Repr

/-- Python `Queue.full()`: true when a positive bound is reached. -/
def PyQueue.full {α : Type} (q : PyQueue α) : Bool :=
  0 < q.maxsize && q.maxsize ≤ q.items.length

/-- `force_put` (mthread_utils.py:5-20): when the queue is full, one item is
consumed via `get_nowait()` (dropping the oldest entry; the `Empty` branch
leaves the queue unchanged, which the drop of an empty list also does), then
the data is put.  After the clear the queue always has room, so the final
blocking `put` appends immediately. -/
def force_put {α : Type} (q : PyQueue α) (data : α) : PyQueue α :=
  let q1 := if q.full then { q with items := q.items.drop 1 } else q
  { q1 with items := q1.items ++ [data] }

/-- States a detection queue can reach: it starts empty, the producer only
uses `force_put`, and the consumer pops the front (`get` / `get_nowait`).
Each operation is atomic; there is one producer and one consumer per
queue. -/
inductive QReach {α : Type} (maxsize : Nat) : PyQueue α → Prop
  | init : QReach maxsize ⟨maxsize, []⟩
  | put (q : PyQueue α) (x : α) : QReach maxsize q → QReach maxsize (force_put q x)
  | consume (q : PyQueue α) : QReach maxsize q →
      QReach maxsize { q with items := q.items.drop 1 }

/-! ## Orchestration loop (`stream_helper.py`)

The mixer (OBS) is an external collaborator: its answers for one tick are
inputs (`LoopEnv`), and the calls issued to it are recorded in
`LoopActions`.  The rendered label text (prettytable) is display-only and
not modelled; neither is the sleep cadence at the end of the tick
(stream_helper.py:193-202), which no claim touches. -/

/-- Per-scene configuration from `obs_scenes` (see `configs/*.py`). -/
structure SceneCfg where
  media_source : String
  media_rotation : Nat
  vote_key : String
  state_label_source : String
deriving DecidableEq, Repr

/-- The mutable state of `StreamHelper` used by `_run_one_loop`
(stream_helper.py:96-114).  The detection processor is always constructed
(lines 70-79); the interact reader may be `None` (lines 81-90).  The reader
is carried here so a tick can mutate it. -/
structure HelperState where
  obs_scenes : List (String × SceneCfg)
  vote_scene_mapping : List (String × String)
  latest_scene_names : List String
  offline_scene_names : List String
  interact_reader : Option BiliReader
  last_detect_vote_results : Option (List (String × Int))
  next_detect_time : Int
  next_vote_time : Int
  vote_interval : Int
  detect_interval : Int
deriving DecidableEq, Repr

/-- External inputs of one tick: the wall clock (`loop_start_time`), the
value `get_mview_results()` returns (None when no result is ready), and the
mixer's current scene name. -/
structure LoopEnv where
  now : Int
  detect_results : Option (List (String × Bool))
  current_scene : String
deriving DecidableEq, Repr

/-- Calls the tick issues to its collaborators: whether a detection job was
submitted, the argument of `set_current_scene` when one happens, and the
text source written by `_set_state_label`. -/
structure LoopActions where
  submitted_job : Bool
  switched_to : Option String
  label_source : Option String
deriving DecidableEq, Repr

/-- The row scene and row vote key for one vote key, per the loop body of
`_convert_vote_results` (stream_helper.py:250-258): the scene is looked up
in `vote_scene_mapping`, skipped when not in `latest_scene_names`, and the
row key re-read from `obs_scenes[scene]['vote_key']`.  The two lookups
cannot fail for states built from a configuration (the keys come from those
same dicts); on an inconsistent state Python would raise `KeyError`, which
no claim exercises, so it is modelled as a skip. -/
def displayedScene (st : HelperState) (vote_key : String) : Option (String × String) :=
  match pyGet? st.vote_scene_mapping vote_key with
  | none => none
  | some scene_name =>
    if st.latest_scene_names.contains scene_name then
      match pyGet? st.obs_scenes scene_name with
      | none => none
      | some cfg => some (scene_name, cfg.vote_key)
    else none

/-- Sum of one table row (`sum(table_row[1:])`, stream_helper.py:266): the
vote value of this key in each source's results, 0 when absent. -/
def rowVoteSum (msrc : List (String × List (String × Int))) (vote_key : String) : Int :=
  (msrc.map (fun p => (pyGet? p.2 vote_key).getD 0)).foldr (· + ·) 0

/-- One iteration of the maximum scan in `_convert_vote_results`
(stream_helper.py:250-269): the accumulator holds
`(max_vote_number, max_vote_scene_name)` and is replaced only when the row
sum is *strictly* greater. -/
def convertStep (st : HelperState) (msrc : List (String × List (String × Int)))
    (acc : Int × Option String) (vote_key : String) : Int × Option String :=
  match displayedScene st vote_key with
  | none => acc
  | some (scene_name, row_key) =>
    let vote_sum := rowVoteSum msrc row_key
    if acc.1 < vote_sum then (vote_sum, some scene_name) else acc

/-- `StreamHelper._convert_vote_results` (stream_helper.py:238-274),
restricted to the returned `max_vote_scene_name` (the label text is
display-only).  Vote keys are iterated in sorted order starting from
`(0, None)`. -/
def convert_vote_results (st : HelperState)
    (msrc : List (String × List (String × Int))) : Option String :=
  ((pySorted (st.vote_scene_mapping.map Prod.fst)).foldl
    (convertStep st msrc) (0, none)).2

/-- `StreamHelper._collect_detection_vote_results` (stream_helper.py:126-144):
when results are available, recompute `latest_scene_names` (sorted result
keys) and `offline_scene_names`, and give every scene with a detection a
fixed vote of 3 on its vote key (`vote_results[vote_key] = 3`). -/
def collect_detection_vote_results (obs_scenes : List (String × SceneCfg))
    (detect_results : Option (List (String × Bool))) :
    Option (List String × List String × List (String × Int)) :=
  match detect_results with
  | none => none
  | some results =>
    let latest := pySorted (results.map Prod.fst)
    let offline := (obs_scenes.map Prod.fst).filter (fun n => !(latest.contains n))
    let vote_results := results.foldl
      (fun acc p =>
        if p.2 then
          match pyGet? obs_scenes p.1 with
          | some cfg => pySet acc cfg.vote_key 3
          | none => acc
        else acc) []
    some (latest, offline, vote_results)

/-- `StreamHelper._set_state_label` at the end of the tick
(stream_helper.py:190-192, 276-292): looks up the current scene's
`state_label_source` (`KeyError` when the scene is not configured) and
writes the text source.  Shared tail of `_run_one_loop`. -/
def finishTick (st : HelperState) (env : LoopEnv) (submitted : Bool)
    (switched : Option String) : Except PyErr (HelperState × LoopActions) :=
  match pyGet? st.obs_scenes env.current_scene with
  | none => .error (.keyError env.current_scene)
  | some cfg => .ok (st, ⟨submitted, switched, some cfg.state_label_source⟩)

/-- Detection half of `StreamHelper._run_one_loop`
(stream_helper.py:146-157).  The detection processor always exists
(stream_helper.py:70-79), so the branch at line 149 always runs: when the
trigger deadline has elapsed a job is submitted and the deadline advanced,
then the result queue is polled (`None` when no result is ready) and
converted.  Returns the updated state and `detect_vote_results`. -/
def detectPhase (st : HelperState) (env : LoopEnv) :
    HelperState × Option (List (String × Int)) :=
  let st := if st.next_detect_time < env.now then
      { st with next_detect_time := env.now + st.detect_interval }
    else st
  match collect_detection_vote_results st.obs_scenes env.detect_results with
  | some (latest, offline, votes) =>
    ({ st with latest_scene_names := latest, offline_scene_names := offline },
     some votes)
  | none => (st, none)

/-- The per-source vote dict `msrc_vote_results` of `_run_one_loop`
(stream_helper.py:163-171): the `弹幕` chat votes first, then the fresh `AI`
detection votes, or their remembered copy when no fresh result arrived. -/
def mergedMsrc (st : HelperState)
    (interact_vote_results detect_vote_results : Option (List (String × Int))) :
    List (String × List (String × Int)) :=
  let msrcBase : List (String × List (String × Int)) :=
    match interact_vote_results with
    | some v => [("弹幕", v)]
    | none => []
  match detect_vote_results with
  | some dv => msrcBase ++ [("AI", dv)]
  | none =>
    match st.last_detect_vote_results with
    | some lv => msrcBase ++ [("AI", lv)]
    | none => msrcBase

/-- Merge-and-decide half of `_run_one_loop` (stream_helper.py:163-192):
builds the per-source dict, remembers fresh detection votes, computes the
vote leader, and at an elapsed vote boundary advances the deadline, calls
`self.interact_reader.reset()` *without* a `None` guard (line 178), and
issues `set_current_scene` when a leader exists, clearing the remembered
detection votes; finally the state label is written. -/
def boundaryPhase (st : HelperState) (env : LoopEnv) (trig : Bool)
    (interact_vote_results detect_vote_results : Option (List (String × Int))) :
    Except PyErr (HelperState × LoopActions) :=
  let msrc := mergedMsrc st interact_vote_results detect_vote_results
  let st := match detect_vote_results with
    | some dv => { st with last_detect_vote_results := some dv }
    | none => st
  let tgt := convert_vote_results st msrc
  if st.next_vote_time - env.now ≤ 0 then
    let st := { st with next_vote_time := env.now + st.vote_interval }
    match st.interact_reader with
    | none => .error (.attributeError "NoneType.reset")
    | some r =>
      let st := { st with interact_reader := some r.reset }
      match tgt with
      | some scene =>
        finishTick { st with last_detect_vote_results := none } env trig (some scene)
      | none => finishTick st env trig none
  else finishTick st env trig none

/-- `StreamHelper._run_one_loop` (stream_helper.py:146-202): the detection
phase, then the interact reader polled behind a `None` check (lines
159-162), then the merge/boundary phase. -/
def run_one_loop (st : HelperState) (env : LoopEnv) :
    Except PyErr (HelperState × LoopActions) :=
  let trig := st.next_detect_time < env.now
  let phase := detectPhase st env
  let st := phase.1
  let detect_vote_results := phase.2
  let interPoll : Except PyErr (Option (List (String × Int)) × HelperState) :=
    match st.interact_reader with
    | some r =>
      match r.get_vote_results with
      | .error e => .error e
      | .ok (votes, r') => .ok (some votes, { st with interact_reader := some r' })
    | none => .ok (none, st)
  match interPoll with
  | .error e => .error e
  | .ok (interact_vote_results, st) =>
    boundaryPhase st env trig interact_vote_results detect_vote_results

/-- The argument of the tick's `set_current_scene` call, if any. -/
def switchedScene (r : Except PyErr (HelperState × LoopActions)) : Option String :=
  match r with
  | .ok (_, a) => a.switched_to
  | .error _ => none

/-! ## Concrete instances used by the individual claims -/

/-- A buffer whose decoded header length (20) differs from the fixed offset
16 the body slice uses: total length 18, op 5, two body bytes at offsets
16-17. -/
def c7buf : List Nat :=
  [0, 0, 0, 18, 0, 20, 0, 0, 0, 0, 0, 5, 0, 0, 0, 0, 65, 66]

/-- A frame with `headerLen = 0` and a 20-byte body: every field is within
its packed range and the total length (20) is within the maximum, yet the
decode of its encoding truncates the body. -/
def c8frame : BliveFrame := ⟨20, 0, 0, 5, 0, List.replicate 20 7⟩

/-- A message dict carrying all the keys `_load_new_msg` reads, from a voter
with no matching medal who is not a super user. -/
def c5msg (m : String) : InterData := ⟨"U1", "U1", m, some "", some 0⟩

/-- Capture outcomes fail, fail, succeed, fail, fail, fail: five failures in
total but never more than three in a row. -/
def c9seq : List Bool := [false, false, true, false, false, false]

/-- Scene configurations of a two-camera setup (vote keys "a" and "b"). -/
def sceneAcfg : SceneCfg := ⟨"srcA", 0, "a", "label"⟩

/-- Second scene of the two-camera setup. -/
def sceneBcfg : SceneCfg := ⟨"srcB", 0, "b", "label"⟩

/-- A reader whose drained tally is the exact tie `a = 1, b = 1`. -/
def c1reader : BiliReader := ⟨[], [], ⟨[("a", 1), ("b", 1)], ["U1", "U2"]⟩⟩

/-- Helper state at a vote boundary with the tied tally: the vote deadline
(0) has elapsed at `now = 10`, the detection trigger is not due. -/
def c1state : HelperState :=
  { obs_scenes := [("sceneA", sceneAcfg), ("sceneB", sceneBcfg)]
    vote_scene_mapping := [("a", "sceneA"), ("b", "sceneB")]
    latest_scene_names := ["sceneA", "sceneB"]
    offline_scene_names := []
    interact_reader := some c1reader
    last_detect_vote_results := none
    next_detect_time := 100
    next_vote_time := 0
    vote_interval := 10
    detect_interval := 10 }

/-- Environment of the tie tick: wall clock 10, no detection result ready,
current scene `sceneA`. -/
def c1env : LoopEnv := ⟨10, none, "sceneA"⟩

/-- The per-source vote dict the tie tick feeds to
`_convert_vote_results`. -/
def c1msrc : List (String × List (String × Int)) := [("弹幕", [("a", 1), ("b", 1)])]

/-- The same helper state but configured without an interact reader
(`interact_reader_cfg = None`, as in `configs/yolov5_ffmpeg_4scenes.py`). -/
def c4state : HelperState :=
  { c1state with interact_reader := none }

end CatStream

/-! # Theorems -/

namespace CatStream

/-! ## Frame codec lemmas -/

theorem toU32_lt (v : Int) : toU32 v < 4294967296 := by
  unfold toU32; omega

theorem signed32_toU32 (v : Int) (h1 : -2147483648 ≤ v) (h2 : v < 2147483648) :
    signed32 (toU32 v) = v := by
  unfold signed32 toU32; split <;> omega

theorem unpack32_pack32 (v : Int) (h1 : -2147483648 ≤ v) (h2 : v < 2147483648) :
    unpack32 (toU32 v / 16777216 % 256) (toU32 v / 65536 % 256)
      (toU32 v / 256 % 256) (toU32 v % 256) = v := by
  have hlt : toU32 v < 4294967296 := toU32_lt v
  unfold unpack32
  have hre : toU32 v / 16777216 % 256 * 16777216 + toU32 v / 65536 % 256 * 65536 +
      toU32 v / 256 % 256 * 256 + toU32 v % 256 = toU32 v := by omega
  rw [hre]
  exact signed32_toU32 v h1 h2

theorem signed16_toU16 (v : Int) (h1 : -32768 ≤ v) (h2 : v < 32768) :
    signed16 (toU16 v) = v := by
  unfold signed16 toU16; split <;> omega

theorem unpack16_pack16 (v : Int) (h1 : -32768 ≤ v) (h2 : v < 32768) :
    unpack16 (toU16 v / 256 % 256) (toU16 v % 256) = v := by
  have hlt : toU16 v < 65536 := by unfold toU16; omega
  unfold unpack16
  have hre : toU16 v / 256 % 256 * 256 + toU16 v % 256 = toU16 v := by omega
  rw [hre]
  exact signed16_toU16 v h1 h2

theorem unpack_cons_eq (a0 a1 a2 a3 b0 b1 c0 c1 d0 d1 d2 d3 e0 e1 e2 e3 : Nat)
    (rest : List Nat) :
    unpack (a0 :: a1 :: a2 :: a3 :: b0 :: b1 :: c0 :: c1 ::
            d0 :: d1 :: d2 :: d3 :: e0 :: e1 :: e2 :: e3 :: rest) =
      (if unpack32 a0 a1 a2 a3 < 0 ∨ maxBody < unpack32 a0 a1 a2 a3 then
        .error .bodyTooLarge
       else .ok ⟨unpack32 a0 a1 a2 a3, unpack16 b0 b1, unpack16 c0 c1,
                 unpack32 d0 d1 d2 d3, unpack32 e0 e1 e2 e3,
                 rest.take ((unpack32 a0 a1 a2 a3).toNat - 16)⟩) := rfl

theorem decodedTotalLen_cons (a0 a1 a2 a3 : Nat) (l : List Nat) :
    decodedTotalLen (a0 :: a1 :: a2 :: a3 :: l) = unpack32 a0 a1 a2 a3 := rfl

/-- C7 (counterexample).  A buffer whose decoded `headerLength` is 20
decodes with body `bytes[16:totalLength]` = `[65, 66]`, not the claim's
`bytes[headerLength:totalLength]`, which is empty here: the body slice uses
the fixed offset 16, not the decoded header length. -/
theorem unpack_body_uses_fixed_offset :
    unpack c7buf = .ok ⟨18, 20, 0, 5, 0, [65, 66]⟩ ∧
    specBodySlice c7buf 20 18 = [] ∧
    ([65, 66] : List Nat) ≠ [] := by decide

/-- C7 (amended).  `unpack` returns `TruncatedHeader` exactly when fewer
than 16 bytes are available, returns `BodyTooLarge` exactly when the decoded
total length is negative or exceeds the configured maximum (2048), and
otherwise succeeds with a frame whose body is `bytes[16:totalLength]` —
sliced from the fixed header size 16, not from the decoded `headerLength`.
It never raises on any other input (the result type is total). -/
theorem unpack_decode_spec (buf : List Nat) :
    (buf.length < 16 → unpack buf = .error .truncatedHeader) ∧
    (16 ≤ buf.length → (decodedTotalLen buf < 0 ∨ maxBody < decodedTotalLen buf) →
      unpack buf = .error .bodyTooLarge) ∧
    (16 ≤ buf.length → 0 ≤ decodedTotalLen buf → decodedTotalLen buf ≤ maxBody →
      ∃ f, unpack buf = .ok f ∧ f.packetLen = decodedTotalLen buf ∧
        f.body = specBodySlice buf 16 (decodedTotalLen buf)) := by
  rcases buf with _ | ⟨a0, _ | ⟨a1, _ | ⟨a2, _ | ⟨a3, _ | ⟨b0, _ | ⟨b1, _ | ⟨c0, _ |
    ⟨c1, _ | ⟨d0, _ | ⟨d1, _ | ⟨d2, _ | ⟨d3, _ | ⟨e0, _ | ⟨e1, _ | ⟨e2, _ |
    ⟨e3, rest⟩⟩⟩⟩⟩⟩⟩⟩⟩⟩⟩⟩⟩⟩⟩⟩
  all_goals
    first
    | exact ⟨fun _ => rfl, fun h => absurd h (by simp), fun h => absurd h (by simp)⟩
    | skip
  refine ⟨fun h => absurd h (by simp only [List.length_cons]; omega), ?_, ?_⟩
  · intro h16 hbad
    rw [decodedTotalLen_cons] at hbad
    rw [unpack_cons_eq, if_pos hbad]
  · intro h16 h0 hmax
    rw [decodedTotalLen_cons] at h0 hmax
    rw [unpack_cons_eq, if_neg (by push_neg; exact ⟨h0, hmax⟩)]
    refine ⟨_, rfl, by rw [decodedTotalLen_cons], ?_⟩
    rw [decodedTotalLen_cons]
    show List.take ((unpack32 a0 a1 a2 a3).toNat - 16) rest = _
    unfold specBodySlice
    rw [List.drop_take]
    rfl

/-- C7 (witness).  The amended decode theorem applied to the empty buffer:
a truncated input yields the `TruncatedHeader` error. -/
theorem unpack_decode_spec_witness : unpack [] = .error .truncatedHeader :=
  (unpack_decode_spec []).1 (by decide)

/-- C8 (counterexample).  `c8frame` satisfies the claim's hypotheses (its
operation is a protocol operation, its total length 20 is within the
maximum), every field is within its packed range, yet
`decode(encode(frame)) ≠ frame`: with `headerLen = 0` the decoder slices the
body as `bytes[16:20]`, keeping 4 of the 20 body bytes. -/
theorem pack_unpack_roundtrip_fails :
    c8frame.op ∈ [(2 : Int), 3, 5, 7, 8] ∧
    (c8frame.body.length : Int) + c8frame.headerLen ≤ maxBody ∧
    c8frame.pack = .ok (packBytes c8frame) ∧
    unpack (packBytes c8frame) = .ok ⟨20, 0, 0, 5, 0, List.replicate 4 7⟩ ∧
    unpack (packBytes c8frame) ≠ .ok c8frame := by decide

/-- C8 (amended).  For every frame with the fixed header length 16, the
data-model invariant `totalLength = 16 + len(body)`, a total length within
the maximum, version and sequence inside their packed ranges and a protocol
operation, encoding succeeds and decoding the result returns the frame
unchanged — `totalLength`, `headerLength`, `protocolVersion`, `operation`,
`sequenceId` and `body` all round-trip. -/
theorem pack_unpack_roundtrip (f : BliveFrame)
    (hhl : f.headerLen = 16)
    (hpl : f.packetLen = (f.body.length : Int) + 16)
    (hmax : (f.body.length : Int) + 16 ≤ maxBody)
    (hver : i16ok f.ver = true)
    (hseq : i32ok f.seq = true)
    (hop : f.op ∈ [(2 : Int), 3, 5, 7, 8]) :
    f.pack = .ok (packBytes f) ∧ unpack (packBytes f) = .ok f := by
  obtain ⟨pl, hl, ver, op, seq, body⟩ := f
  simp only at hhl hpl hmax hver hseq hop
  subst hhl; subst hpl
  simp only [maxBody] at hmax
  have hopok : i32ok op = true := by
    simp only [List.mem_cons, List.not_mem_nil, or_false] at hop
    rcases hop with h | h | h | h | h <;> subst h <;> decide
  have hplok : i32ok ((body.length : Int) + 16) = true := by
    simp only [i32ok, Bool.and_eq_true, decide_eq_true_eq]
    omega
  have hver' : -32768 ≤ ver ∧ ver < 32768 := by
    simpa [i16ok, Bool.and_eq_true, decide_eq_true_eq] using hver
  have hseq' : -2147483648 ≤ seq ∧ seq < 2147483648 := by
    simpa [i32ok, Bool.and_eq_true, decide_eq_true_eq] using hseq
  have hop' : -2147483648 ≤ op ∧ op < 2147483648 := by
    simpa [i32ok, Bool.and_eq_true, decide_eq_true_eq] using hopok
  constructor
  · simp [BliveFrame.pack, hplok, hver, hseq, hopok,
      show i16ok 16 = true from by decide]
  · simp only [packBytes, pack32, pack16, u32bytes, u16bytes,
      List.cons_append, List.nil_append]
    simp only [unpack]
    rw [unpack32_pack32 _ (by omega) (by omega)]
    rw [unpack16_pack16 _ (by omega) (by omega)]
    rw [unpack16_pack16 _ hver'.1 hver'.2]
    rw [unpack32_pack32 _ hop'.1 hop'.2]
    rw [unpack32_pack32 _ hseq'.1 hseq'.2]
    rw [if_neg (by simp only [maxBody]; push_neg; constructor <;> omega)]
    have hlen : ((body.length : Int) + 16).toNat - 16 = body.length := by omega
    rw [hlen, List.take_length]

/-- C8 (witness).  The amended round-trip theorem applied to a concrete
one-byte frame. -/
theorem pack_unpack_roundtrip_witness :
    (⟨17, 16, 0, 5, 0, [65]⟩ : BliveFrame).pack =
      .ok (packBytes ⟨17, 16, 0, 5, 0, [65]⟩) ∧
    unpack (packBytes ⟨17, 16, 0, 5, 0, [65]⟩) = .ok ⟨17, 16, 0, 5, 0, [65]⟩ :=
  pack_unpack_roundtrip ⟨17, 16, 0, 5, 0, [65]⟩ rfl (by decide) (by decide)
    (by decide) (by decide) (by decide)

/-! ## Vote aggregator claims -/

/-- C2.  The chat dict `recv_loop` enqueues carries no `medal_name` key, so
the first accepted vote of *any* voter — with or without super-user
privileges — makes `_load_new_msg` raise `KeyError('medal_name')` instead of
adding 1 (resp. 11) to `tally["c"]`: the producer and the consumer of the
interaction queue disagree on the event schema. -/
theorem chat_event_missing_medal_key :
    recvEnqueueItem "U2" "U2" "c" = .chat (cleanData "U2" "U2" "c") ∧
    (cleanData "U2" "U2" "c").medal_name = none ∧
    loadOneMsg ["U3"] ⟨[], []⟩ (cleanData "U2" "U2" "c") =
      .error (.keyError "medal_name") ∧
    loadOneMsg ["U3"] ⟨[], []⟩ (cleanData "U3" "U3" "c") =
      .error (.keyError "medal_name") ∧
    loadOneMsg ["U3"] ⟨[], []⟩ (cleanData "U2" "U2" "c") ≠
      .ok ⟨[("c", 1)], ["U2"]⟩ ∧
    loadOneMsg ["U3"] ⟨[], []⟩ (cleanData "U3" "U3" "c") ≠
      .ok ⟨[("c", 11)], ["U3"]⟩ := by decide

/-- C5 (counterexample).  Voter U1 sending "a" then "b" then "a" does not
leave the tally equal to `{a: weight(U1)}`: the second message inserts the
key "b" with score 0 before the already-voted check runs, so the final tally
is `{a: 1, b: 0}`. -/
theorem vote_dedup_keeps_zero_key :
    loadMsgs [] ⟨[], []⟩ [c5msg "a", c5msg "b", c5msg "a"] =
      .ok ⟨[("a", 1), ("b", 0)], ["U1"]⟩ ∧
    pyContains [("a", (1 : Int)), ("b", 0)] "b" = true ∧
    ([("a", (1 : Int)), ("b", 0)]) ≠ [("a", 1)] := by decide

/-- C5 (amended).  Once a voter has voted, a later event from that voter
never changes any score and never changes the voted set: the tally is either
unchanged or extended by a zero-scored entry for a new single-letter
message.  Concretely, U1 sending "a", "b", "a" yields the tally
`{a: weight(U1), b: 0}` (weight 1 for a plain voter). -/
theorem vote_dedup (su : List String) (st : ReaderVoteState) (d : InterData)
    (st' : ReaderVoteState)
    (hvoted : st.voted_users.contains d.uid = true)
    (hrun : loadOneMsg su st d = .ok st') :
    st'.voted_users = st.voted_users ∧
    (st'.votes = st.votes ∨
      st'.votes = st.votes ++ [(⟨pyLower (pyStrip d.msg.data)⟩, 0)]) ∧
    loadMsgs [] ⟨[], []⟩ [c5msg "a", c5msg "b", c5msg "a"] =
      .ok ⟨[("a", 1), ("b", 0)], ["U1"]⟩ := by
  have hfacts : st'.voted_users = st.voted_users ∧
      (st'.votes = st.votes ∨
        st'.votes = st.votes ++ [(⟨pyLower (pyStrip d.msg.data)⟩, 0)]) := by
    simp only [loadOneMsg, hvoted, if_true] at hrun
    split at hrun
    · rw [Except.ok.injEq] at hrun
      subst hrun
      constructor
      · rfl
      · dsimp only
        split
        · exact Or.inl rfl
        · exact Or.inr rfl
    · rw [Except.ok.injEq] at hrun
      subst hrun
      exact ⟨rfl, Or.inl rfl⟩
  exact ⟨hfacts.1, hfacts.2, by decide⟩

/-- C5 (witness).  The dedup theorem applied to voter U1 who already voted,
sending "b" into the tally `{a: 1}`. -/
theorem vote_dedup_witness :
    (⟨[("a", 1), ("b", 0)], ["U1"]⟩ : ReaderVoteState).voted_users =
      (⟨[("a", 1)], ["U1"]⟩ : ReaderVoteState).voted_users ∧
    ((⟨[("a", 1), ("b", 0)], ["U1"]⟩ : ReaderVoteState).votes =
        (⟨[("a", 1)], ["U1"]⟩ : ReaderVoteState).votes ∨
      (⟨[("a", 1), ("b", 0)], ["U1"]⟩ : ReaderVoteState).votes =
        (⟨[("a", 1)], ["U1"]⟩ : ReaderVoteState).votes ++
          [(⟨pyLower (pyStrip (c5msg "b").msg.data)⟩, 0)]) ∧
    loadMsgs [] ⟨[], []⟩ [c5msg "a", c5msg "b", c5msg "a"] =
      .ok ⟨[("a", 1), ("b", 0)], ["U1"]⟩ :=
  vote_dedup [] ⟨[("a", 1)], ["U1"]⟩ (c5msg "b") ⟨[("a", 1), ("b", 0)], ["U1"]⟩
    (by decide) (by decide)

/-! ## Session-client construction claim -/

/-- C3 (counterexample).  Constructing the reader ends in
`TypeError: unexpected keyword argument 'exit_signal'` raised by the
`BiliClient(...)` call — it does *not* reach the blocking wait for a first
queue item, refuting the claim's "it then blocks waiting for a first queue
item equal to Ready". -/
theorem reader_init_no_block :
    readerInit none = .raisedTypeError "exit_signal" ∧
    readerInit none ≠ .blockedOnFirstItem ∧
    readerInit none ≠ .completed := by decide

/-- C3 (amended).  Constructing the interact reader never completes
successfully: whatever the queue would eventually deliver, the constructor
raises `TypeError` on the `exit_signal` keyword before the thread is started
or the Ready wait is reached; and the receive loop only ever enqueues chat
dicts, never the string "Ready", so even the wait could not be satisfied. -/
theorem reader_init_never_completes :
    (∀ firstItem : Option QItem,
      readerInit firstItem = .raisedTypeError "exit_signal") ∧
    (∀ uid uname msg : String, recvEnqueueItem uid uname msg ≠ .ready) := by
  constructor
  · intro fi; rfl
  · intro uid uname msg h
    exact QItem.noConfusion h

/-! ## Receive-loop enqueue claim -/

/-- C6 (counterexample).  With the default configuration and a queue that
stays full, the enqueue of a parsed chat message ends in `Full` only after
waiting the configured 10-second timeout — it is a blocking put, not the
claimed non-blocking immediate drop — and the drop is logged at `error`
level. -/
theorem recv_enqueue_not_immediate :
    recvLoopEnqueue defaultQueuePutTimeout (fun _ => false) =
      (.fullAt 10, some .error) ∧
    (PutResult.fullAt 10) ≠ (PutResult.fullAt 0) := by decide

/-- C6 (amended).  For every configured timeout and every queue that stays
full throughout the wait, the enqueue blocks for the full timeout, then
drops the event with an error-level log message; the message is handled by a
single `put` call, so it is never retried. -/
theorem recv_enqueue_waits (t : Nat) (freeAt : Nat → Bool)
    (hfull : ∀ k, k ≤ t → freeAt k = false) :
    recvLoopEnqueue t freeAt = (.fullAt t, some .error) := by
  have hnone : firstFreeTick freeAt t = none := by
    unfold firstFreeTick
    rw [List.find?_eq_none]
    intro x hx
    rw [List.mem_range] at hx
    simp [hfull x (by omega)]
  unfold recvLoopEnqueue pyQueuePut
  rw [if_pos rfl, hnone]

/-- C6 (witness).  The blocking-enqueue theorem applied to the default
timeout and an always-full queue. -/
theorem recv_enqueue_waits_witness :
    recvLoopEnqueue 10 (fun _ => false) = (.fullAt 10, some .error) :=
  recv_enqueue_waits 10 (fun _ => false) (fun _ _ => rfl)

/-! ## Detection-pipeline claims -/

theorem srcStep_black (tol : Nat) (h : SrcHealth) (hb : h.blacklisted = true)
    (ok : Bool) : srcStep tol h ok = h := by
  simp [srcStep, hb]

theorem srcFold_black (tol : Nat) (outcomes : List Bool) (h : SrcHealth)
    (hb : h.blacklisted = true) :
    outcomes.foldl (srcStep tol) h = h := by
  induction outcomes with
  | nil => rfl
  | cons ok rest ih => rw [List.foldl_cons, srcStep_black tol h hb ok, ih]

theorem srcFold_count (tol : Nat) (outcomes : List Bool) (h : SrcHealth) (c : Nat)
    (hb : h.blacklisted = false) (hcnt : h.failure_count.getD 0 = c) (hc : c < tol) :
    ((outcomes.foldl (srcStep tol) h).blacklisted = true ↔
      tol ≤ c + outcomes.count false) := by
  induction outcomes generalizing h c with
  | nil =>
    simp [hb]
    omega
  | cons ok rest ih =>
    rw [List.foldl_cons]
    cases ok
    case true =>
      have hstep : srcStep tol h true = ⟨some c, false⟩ := by
        simp [srcStep, hb, hcnt]
      rw [hstep, ih ⟨some c, false⟩ c rfl rfl hc]
      simp [List.count_cons]
    case false =>
      have hstep : srcStep tol h false = ⟨some (c + 1), decide (tol ≤ c + 1)⟩ := by
        simp [srcStep, hb, hcnt]
      rw [hstep]
      by_cases htol : tol ≤ c + 1
      · rw [srcFold_black tol rest _ (by simp [htol])]
        simp [List.count_cons]
        omega
      · have hrec := ih ⟨some (c + 1), false⟩ (c + 1) rfl rfl (by omega)
        simp only [decide_eq_false htol] at *
        rw [hrec]
        simp [List.count_cons]
        omega

/-- C9 (counterexample).  With tolerance 5, the outcome sequence
fail, fail, succeed, fail, fail, fail blacklists the source although its
longest consecutive-failure run is 3 < 5; and after fail, fail, succeed the
counter still reads 2 — the intervening success did not reset any
progress. -/
theorem blacklist_without_consecutive_failures :
    (srcRun 5 c9seq).blacklisted = true ∧
    maxConsecFails c9seq = 3 ∧
    (3 : Nat) < 5 ∧
    srcRun 5 [false, false, true] = ⟨some 2, false⟩ := by decide

/-- C9 (amended).  The failure counter is cumulative over the source's
lifetime: a success never resets it, and the source is blacklisted exactly
when the total number of failed capture attempts — consecutive or not —
reaches `rtsp_tolerance`. -/
theorem blacklist_total_failures (tol : Nat) (outcomes : List Bool)
    (htol : 1 ≤ tol) :
    ((srcRun tol outcomes).blacklisted = true ↔ tol ≤ outcomes.count false) := by
  unfold srcRun
  have := srcFold_count tol outcomes ⟨none, false⟩ 0 rfl rfl (by omega)
  simpa using this

/-- C9 (witness).  The cumulative-blacklist theorem applied to tolerance 5
and the fail, fail, succeed, fail, fail, fail sequence. -/
theorem blacklist_total_failures_witness :
    (srcRun 5 c9seq).blacklisted = true ↔ 5 ≤ c9seq.count false :=
  blacklist_total_failures 5 c9seq (by decide)

theorem qreach_inv {α : Type} (q : PyQueue α) (h : QReach 1 q) :
    q.maxsize = 1 ∧ q.items.length ≤ 1 := by
  induction h with
  | init => simp
  | put q x hq ih =>
    obtain ⟨hm, hl⟩ := ih
    constructor
    · simp only [force_put]
      split <;> simpa using hm
    · simp only [force_put, PyQueue.full]
      split
      · rename_i hfull
        simp only [Bool.and_eq_true, decide_eq_true_eq] at hfull
        rw [hm] at hfull
        simp only [List.length_append, List.length_drop, List.length_cons,
          List.length_nil]
        omega
      · rename_i hfull
        simp only [Bool.and_eq_true, decide_eq_true_eq, not_and, not_le] at hfull
        rw [hm] at hfull
        have hlen0 := hfull (by norm_num)
        simp only [List.length_append, List.length_cons, List.length_nil]
        omega
  | consume q hq ih =>
    obtain ⟨hm, hl⟩ := ih
    exact ⟨hm, by simp only [List.length_drop]; omega⟩

/-- C10.  For the capacity-1 detection job and result queues, every state
reachable through `force_put` submissions and consumer pops holds at most
one pending item; and `force_put` into a full capacity-1 queue discards the
unconsumed item and replaces it with the new one (after the drop the queue
has room, so the final put appends without blocking). -/
theorem detection_queue_latest_wins (α : Type) :
    (∀ q : PyQueue α, QReach 1 q → q.items.length ≤ 1) ∧
    (∀ x y : α, force_put ⟨1, [x]⟩ y = ⟨1, [y]⟩) := by
  constructor
  · intro q hq
    exact (qreach_inv q hq).2
  · intro x y
    rfl

/-- C10 (witness).  The latest-wins theorem applied to the initial empty
queue and to a full queue holding one item. -/
theorem detection_queue_latest_wins_witness :
    (⟨1, []⟩ : PyQueue Nat).items.length ≤ 1 ∧
    force_put (⟨1, [5]⟩ : PyQueue Nat) 6 = ⟨1, [6]⟩ :=
  ⟨(detection_queue_latest_wins Nat).1 ⟨1, []⟩ QReach.init,
   (detection_queue_latest_wins Nat).2 5 6⟩

/-! ## Orchestration-loop lemmas -/

theorem detectPhase_reader (st : HelperState) (env : LoopEnv) :
    (detectPhase st env).1.interact_reader = st.interact_reader := by
  unfold detectPhase
  split <;> (dsimp only; split <;> rfl)

theorem detectPhase_vote_time (st : HelperState) (env : LoopEnv) :
    (detectPhase st env).1.next_vote_time = st.next_vote_time := by
  unfold detectPhase
  split <;> (dsimp only; split <;> rfl)

theorem finishTick_ne_attr (st : HelperState) (env : LoopEnv) (s : Bool)
    (w : Option String) (d : String) :
    finishTick st env s w ≠ .error (.attributeError d) := by
  unfold finishTick
  split <;> simp

theorem boundaryPhase_none_reader (st : HelperState) (env : LoopEnv) (trig : Bool)
    (ivr dvr : Option (List (String × Int)))
    (hrd : st.interact_reader = none)
    (hb : st.next_vote_time ≤ env.now) :
    boundaryPhase st env trig ivr dvr = .error (.attributeError "NoneType.reset") := by
  unfold boundaryPhase
  rcases dvr with _ | dv
  · dsimp only
    rw [if_pos (by omega), hrd]
  · dsimp only
    rw [if_pos (by simpa using hb)]
    simp only [hrd]

theorem boundaryPhase_guarded (st : HelperState) (env : LoopEnv) (trig : Bool)
    (ivr dvr : Option (List (String × Int)))
    (hnb : ¬(st.next_vote_time - env.now ≤ 0)) :
    boundaryPhase st env trig ivr dvr ≠ .error (.attributeError "NoneType.reset") := by
  unfold boundaryPhase
  rcases dvr with _ | dv
  · dsimp only
    rw [if_neg hnb]
    exact finishTick_ne_attr _ _ _ _ _
  · dsimp only
    rw [if_neg (by simpa using hnb)]
    exact finishTick_ne_attr _ _ _ _ _

theorem convertFold_some_ne_none (st : HelperState)
    (msrc : List (String × List (String × Int))) (keys : List String)
    (m : Int) (s : String) :
    ((keys.foldl (convertStep st msrc) (m, some s)).2) ≠ none := by
  induction keys generalizing m s with
  | nil => simp
  | cons k rest ih =>
    rw [List.foldl_cons]
    cases h : displayedScene st k with
    | none =>
      simp only [convertStep, h]
      exact ih m s
    | some p =>
      obtain ⟨sc, rk⟩ := p
      simp only [convertStep, h]
      split
      · exact ih _ _
      · exact ih m s

theorem convertFold_none_iff (st : HelperState)
    (msrc : List (String × List (String × Int))) (keys : List String) :
    ((keys.foldl (convertStep st msrc) (0, none)).2 = none ↔
      ∀ k ∈ keys, ∀ sc rk, displayedScene st k = some (sc, rk) →
        rowVoteSum msrc rk ≤ 0) := by
  induction keys with
  | nil => simp
  | cons k rest ih =>
    rw [List.foldl_cons]
    cases h : displayedScene st k with
    | none =>
      simp only [convertStep, h]
      rw [ih]
      constructor
      · intro hall k' hk' sc rk hd
        rcases List.mem_cons.mp hk' with rfl | hk''
        · rw [h] at hd; cases hd
        · exact hall k' hk'' sc rk hd
      · intro hall k' hk' sc rk hd
        exact hall k' (List.mem_cons_of_mem _ hk') sc rk hd
    | some p =>
      obtain ⟨sc, rk⟩ := p
      simp only [convertStep, h]
      by_cases hsum : (0 : Int) < rowVoteSum msrc rk
      · rw [if_pos (by simpa using hsum)]
        constructor
        · intro habs
          exact absurd habs (convertFold_some_ne_none st msrc rest _ _)
        · intro hall
          exfalso
          have := hall k (List.mem_cons_self k rest) sc rk h
          omega
      · rw [if_neg (by simpa using hsum)]
        rw [ih]
        constructor
        · intro hall k' hk' sc' rk' hd
          rcases List.mem_cons.mp hk' with rfl | hk''
          · rw [h] at hd
            have hp : sc = sc' ∧ rk = rk' := by simpa using hd
            obtain ⟨rfl, rfl⟩ := hp
            omega
          · exact hall k' hk'' sc' rk' hd
        · intro hall k' hk' sc' rk' hd
          exact hall k' (List.mem_cons_of_mem _ hk') sc' rk' hd

theorem boundaryPhase_switch (st : HelperState) (env : LoopEnv) (trig : Bool)
    (ivr dvr : Option (List (String × Int))) (r : BiliReader) (cfg : SceneCfg)
    (hrd : st.interact_reader = some r)
    (hb : st.next_vote_time - env.now ≤ 0)
    (hcs : pyGet? st.obs_scenes env.current_scene = some cfg) :
    switchedScene (boundaryPhase st env trig ivr dvr) =
      convert_vote_results st (mergedMsrc st ivr dvr) := by
  unfold boundaryPhase
  rcases dvr with _ | dv
  case none =>
    dsimp only
    rw [if_pos hb, hrd]
    dsimp only
    cases htgt : convert_vote_results st (mergedMsrc st ivr none) with
    | none =>
      unfold finishTick
      dsimp only
      rw [hcs]
      rfl
    | some scene =>
      unfold finishTick
      dsimp only
      rw [hcs]
      rfl
  case some =>
    dsimp only
    rw [if_pos hb, hrd]
    dsimp only
    have hconv : convert_vote_results
        { st with interact_reader := some r, last_detect_vote_results := some dv }
        (mergedMsrc st ivr (some dv)) =
        convert_vote_results st (mergedMsrc st ivr (some dv)) := rfl
    rw [hconv]
    cases htgt : convert_vote_results st (mergedMsrc st ivr (some dv)) with
    | none =>
      unfold finishTick
      dsimp only
      rw [hcs]
      rfl
    | some scene =>
      unfold finishTick
      dsimp only
      rw [hcs]
      rfl

/-- C1 (counterexample).  At a vote boundary where options "a" and "b" both
have combined score 1 (and no other option exceeds them), the tick issues
`set_current_scene("sceneA")`: the strict-maximum scan keeps the first
positive row as the leader, so the tie does not suppress the switch. -/
theorem tie_issues_switch :
    rowVoteSum c1msrc "a" = 1 ∧
    rowVoteSum c1msrc "b" = 1 ∧
    switchedScene (run_one_loop c1state c1env) = some "sceneA" := by decide

/-- C1 (amended).  Ties do not suppress the scene switch.  (a) The leader is
`None` exactly when every displayed option's combined score is ≤ 0 — any
positive score, tied or not, produces a leader (the earliest-sorted option
with the strictly greatest prefix score).  (b) At an elapsed vote boundary
with the reader present, the tick's `set_current_scene` argument is exactly
that leader, so a switch is issued whenever some option has a positive
combined score. -/
theorem tie_does_not_suppress_switch :
    (∀ (st : HelperState) (msrc : List (String × List (String × Int))),
      convert_vote_results st msrc = none ↔
        ∀ k ∈ pySorted (st.vote_scene_mapping.map Prod.fst), ∀ sc rk,
          displayedScene st k = some (sc, rk) → rowVoteSum msrc rk ≤ 0) ∧
    (∀ (st : HelperState) (env : LoopEnv) (trig : Bool)
        (ivr dvr : Option (List (String × Int))) (r : BiliReader) (cfg : SceneCfg),
      st.interact_reader = some r →
      st.next_vote_time - env.now ≤ 0 →
      pyGet? st.obs_scenes env.current_scene = some cfg →
      switchedScene (boundaryPhase st env trig ivr dvr) =
        convert_vote_results st (mergedMsrc st ivr dvr)) := by
  constructor
  · intro st msrc
    unfold convert_vote_results
    exact convertFold_none_iff st msrc _
  · intro st env trig ivr dvr r cfg hrd hb hcs
    exact boundaryPhase_switch st env trig ivr dvr r cfg hrd hb hcs

/-- C1 (witness).  The switch-equals-leader part applied to the concrete tie
boundary tick. -/
theorem tie_does_not_suppress_switch_witness :
    switchedScene (boundaryPhase c1state c1env false (some [("a", 1), ("b", 1)]) none) =
      convert_vote_results c1state (mergedMsrc c1state (some [("a", 1), ("b", 1)]) none) :=
  tie_does_not_suppress_switch.2 c1state c1env false (some [("a", 1), ("b", 1)]) none
    c1reader sceneAcfg rfl (by decide) (by decide)

/-- C4.  With no interact reader configured, the first tick whose
vote-window deadline has elapsed evaluates `self.interact_reader.reset()` on
`None` and raises `AttributeError`; while the deadline has not elapsed, the
tick never raises that error, because every other reader access is behind a
`None` check. -/
theorem none_reader_reset (st : HelperState) (env : LoopEnv)
    (hrd : st.interact_reader = none) :
    (st.next_vote_time ≤ env.now →
      run_one_loop st env = .error (.attributeError "NoneType.reset")) ∧
    (env.now < st.next_vote_time →
      run_one_loop st env ≠ .error (.attributeError "NoneType.reset")) := by
  have h1 : (detectPhase st env).1.interact_reader = none := by
    rw [detectPhase_reader]; exact hrd
  constructor
  · intro hb
    unfold run_one_loop
    dsimp only
    rw [h1]
    exact boundaryPhase_none_reader _ _ _ _ _ h1
      (by rw [detectPhase_vote_time]; exact hb)
  · intro hb
    unfold run_one_loop
    dsimp only
    rw [h1]
    exact boundaryPhase_guarded _ _ _ _ _ (by rw [detectPhase_vote_time]; omega)

/-- C4 (witness).  The crash theorem applied to the concrete reader-less
state at an elapsed vote boundary. -/
theorem none_reader_reset_witness :
    run_one_loop c4state c1env = .error (.attributeError "NoneType.reset") :=
  (none_reader_reset c4state c1env rfl).1 (by decide)

end CatStream
